import Mathlib

/-
Verification of the scoped Wow64 filesystem-redirection guard
(`win-fs-redirect`, `src/lib.rs`) against its specification.

The library is a single RAII guard:

  pub struct DisableFsRedirection(Option<*mut PVOID>);

  pub fn start() -> Result<DisableFsRedirection, u32> {
      let mut old: PVOID = unsafe { std::mem::zeroed() };
      match unsafe { Wow64DisableWow64FsRedirection(&mut old) } {
          1 => Ok(DisableFsRedirection(Some(&mut old))),
          _ => Err(unsafe { GetLastError() }),
      }
  }

  impl Drop for DisableFsRedirection {
      fn drop(&mut self) {
          if let Some(h) = self.0 {
              if unsafe { Wow64RevertWow64FsRedirection(*h) } != 1 {
                  error!("... failed with {}", unsafe { GetLastError() });
              }
          }
      }
  }

The embedding models the two OS primitives and `GetLastError` as an oracle
of per-round responses, and models process memory explicitly, because the
guard stores a raw pointer to the stack local `old` of `start` (not the
token value): when `start` returns, that slot is popped and its later
content is not governed by the program.  The `Drop` body is translated as
a pure function producing the post-state of the guard value, the list of
OS calls made, and the diagnostic records emitted.
-/

namespace WinFsRedirect

/-- Opaque pointer-sized OS value (Windows `PVOID`). -/
abbrev PVOID := Nat

/-- A machine address; the raw pointer stored in the guard is one of these. -/
abbrev Addr := Nat

/-- Process memory for the stack-slot model: contents by address, plus a
liveness flag (a stack local is live only while its frame is on the stack). -/
structure Mem where
  contents : Addr → PVOID
  live : Addr → Bool

/-- Write a value at an address. -/
def Mem.write (m : Mem) (a : Addr) (v : PVOID) : Mem :=
  { m with contents := fun x => if x = a then v else m.contents x }

/-- Push a stack slot: the address becomes live with the given initial value. -/
def Mem.alloc (m : Mem) (a : Addr) (v : PVOID) : Mem :=
  { contents := fun x => if x = a then v else m.contents x,
    live := fun x => if x = a then true else m.live x }

/-- Pop a stack slot: the address is no longer live (its later content is
not governed by the program that freed it). -/
def Mem.free (m : Mem) (a : Addr) : Mem :=
  { m with live := fun x => if x = a then false else m.live x }

/-- Responses of the external OS collaborator for one acquisition round:
what `Wow64DisableWow64FsRedirection` writes into the slot and returns,
what `Wow64RevertWow64FsRedirection` returns as a function of the argument
it is passed, and the `GetLastError` value at each of the two query sites. -/
structure OsRound where
  disableToken : PVOID
  disableFlag : Int
  revertFlag : PVOID → Int
  lastErrorAfterDisable : Nat
  lastErrorAfterRevert : Nat

/-- One call across the OS boundary, with the argument passed to revert. -/
inductive OsCall where
  | disable
  | revert (arg : PVOID)
deriving DecidableEq, Repr

/-- Whether a boundary call is a revert call. -/
def OsCall.isRevert : OsCall → Bool
  | .revert _ => true
  | .disable => false

/-- A diagnostic record emitted by the cleanup path; carries the OS
last-error code logged by the `error!` statement. -/
structure LogRecord where
  code : Nat
deriving DecidableEq, Repr

/-- The guard type: `pub struct DisableFsRedirection(Option<*mut PVOID>);`.
The single field is an optional raw pointer (an address), not a token value. -/
structure DisableFsRedirection where
  ptr : Option Addr
deriving DecidableEq, Repr

/-- Outcome of `DisableFsRedirection::start`: the returned `Result`, the
memory after the function returns, and the OS calls made. -/
structure StartResult where
  res : Except Nat DisableFsRedirection
  mem : Mem
  calls : List OsCall

/-- Shallow embedding of `DisableFsRedirection::start`.  `a` is the stack
address of the local `old`.  The local is allocated zeroed
(`std::mem::zeroed`), the disable primitive writes the token through the
passed pointer, and the returned flag is matched against the literal `1`:
on `1` the guard is built holding `Some` of the address of `old` (the
source's `Some(&mut old)`); on anything else the error is the value of
`GetLastError` queried immediately after.  In both cases the function then
returns, popping the frame, so the slot at `a` is freed. -/
def start (os : OsRound) (a : Addr) (m : Mem) : StartResult :=
  let m1 := (m.alloc a 0).write a os.disableToken
  match os.disableFlag with
  | 1 => ⟨Except.ok ⟨some a⟩, m1.free a, [OsCall.disable]⟩
  | _ => ⟨Except.error os.lastErrorAfterDisable, m1.free a, [OsCall.disable]⟩

/-- Outcome of one run of the `Drop` body: the guard value as the body
leaves it, the OS calls made, and the diagnostic records emitted. -/
structure DropResult where
  guard : DisableFsRedirection
  calls : List OsCall
  logs : List LogRecord

/-- Shallow embedding of `fn drop(&mut self)` for `DisableFsRedirection`.
If the field holds `Some h`, the body dereferences the stored raw pointer
(`*h`) in the current memory, passes that value to the revert primitive,
and if the returned flag is not `1` emits a diagnostic carrying
`GetLastError`.  The body never writes the field back, never returns an
error, and never diverges. -/
def dropGuard (os : OsRound) (m : Mem) (g : DisableFsRedirection) : DropResult :=
  match g.ptr with
  | none => ⟨g, [], []⟩
  | some h =>
    let v := m.contents h
    if os.revertFlag v ≠ 1 then
      ⟨g, [OsCall.revert v], [⟨os.lastErrorAfterRevert⟩]⟩
    else
      ⟨g, [OsCall.revert v], []⟩

/-- Outcome of a whole scoped use: the caller-visible result, all OS calls
in order, all diagnostics, and the final memory. -/
structure RunResult where
  result : Except Nat Unit
  calls : List OsCall
  logs : List LogRecord
  mem : Mem

/-- A full scoped use of the guard, as in the crate's example: `start` is
called; on error that error propagates and no guard exists; on success the
caller's code runs (`mid` is an arbitrary transformation of memory by that
code) and then, on any exit from the scope, the language runs the `Drop`
body exactly once on the guard value. -/
def scopedUse (os : OsRound) (a : Addr) (mid : Mem → Mem) (m0 : Mem) : RunResult :=
  match start os a m0 with
  | ⟨Except.error e, m1, calls⟩ => ⟨Except.error e, calls, [], m1⟩
  | ⟨Except.ok g, m1, calls⟩ =>
      let m2 := mid m1
      let d := dropGuard os m2 g
      ⟨Except.ok (), calls ++ d.calls, d.logs, m2⟩

/-- Two sequential scoped uses, each against its own round of OS responses,
memory threaded from the first to the second. -/
def seqTwo (os1 os2 : OsRound) (a1 a2 : Addr) (mid1 mid2 : Mem → Mem)
    (m0 : Mem) : RunResult × RunResult :=
  let r1 := scopedUse os1 a1 mid1 m0
  let r2 := scopedUse os2 a2 mid2 r1.mem
  (r1, r2)

/-- Concrete fixture: an all-zero initial memory with no live slots. -/
def memZero : Mem := ⟨fun _ => 0, fun _ => false⟩

/-- Concrete fixture: a memory whose every address holds the value 3. -/
def memTok3 : Mem := ⟨fun _ => 3, fun _ => false⟩

/-- Concrete fixture: the disable call fails with flag 0; the last-error
query after it returns 7. -/
def osFail : OsRound := ⟨0, 0, fun _ => 1, 7, 9⟩

/-- Concrete fixture: the disable call succeeds and writes token 5; revert
always succeeds. -/
def osTok5 : OsRound := ⟨5, 1, fun _ => 1, 0, 0⟩

/-- Concrete fixture: the disable call succeeds with token 3; revert always
succeeds. -/
def osRevOk : OsRound := ⟨3, 1, fun _ => 1, 0, 0⟩

/-- Concrete fixture: the disable call succeeds with token 2; revert always
fails with flag 0, and the last-error query after it returns 13. -/
def osRevFail : OsRound := ⟨2, 1, fun _ => 0, 0, 13⟩

/-- Concrete fixture: the disable call succeeds and writes token 1; revert
always succeeds. -/
def osOk : OsRound := ⟨1, 1, fun _ => 1, 0, 0⟩

theorem start_of_flag_one (os : OsRound) (a : Addr) (m : Mem)
    (h : os.disableFlag = 1) :
    start os a m =
      ⟨Except.ok ⟨some a⟩, ((m.alloc a 0).write a os.disableToken).free a,
        [OsCall.disable]⟩ := by
  unfold start
  rw [h]
  rfl

theorem start_of_flag_ne (os : OsRound) (a : Addr) (m : Mem)
    (h : os.disableFlag ≠ 1) :
    start os a m =
      ⟨Except.error os.lastErrorAfterDisable,
        ((m.alloc a 0).write a os.disableToken).free a, [OsCall.disable]⟩ := by
  unfold start
  split
  · next h1 => exact absurd h1 h
  · rfl

theorem dropGuard_calls (os : OsRound) (m : Mem) (p : Addr) :
    (dropGuard os m ⟨some p⟩).calls = [OsCall.revert (m.contents p)] := by
  unfold dropGuard
  dsimp only
  split <;> rfl

theorem dropGuard_guard_unchanged (os : OsRound) (m : Mem)
    (g : DisableFsRedirection) :
    (dropGuard os m g).guard = g := by
  rcases g with ⟨_ | p⟩
  · rfl
  · unfold dropGuard
    dsimp only
    split <;> rfl

theorem dropGuard_logs (os : OsRound) (m : Mem) (p : Addr) :
    (dropGuard os m ⟨some p⟩).logs =
      if os.revertFlag (m.contents p) ≠ 1 then [⟨os.lastErrorAfterRevert⟩]
      else [] := by
  unfold dropGuard
  dsimp only
  split <;> rfl

theorem scopedUse_of_flag_one (os : OsRound) (a : Addr) (mid : Mem → Mem)
    (m0 : Mem) (h : os.disableFlag = 1) :
    scopedUse os a mid m0 =
      ⟨Except.ok (),
        OsCall.disable ::
          (dropGuard os (mid (((m0.alloc a 0).write a os.disableToken).free a))
            ⟨some a⟩).calls,
        (dropGuard os (mid (((m0.alloc a 0).write a os.disableToken).free a))
          ⟨some a⟩).logs,
        mid (((m0.alloc a 0).write a os.disableToken).free a)⟩ := by
  unfold scopedUse
  rw [start_of_flag_one os a m0 h]
  rfl

theorem scopedUse_of_flag_ne (os : OsRound) (a : Addr) (mid : Mem → Mem)
    (m0 : Mem) (h : os.disableFlag ≠ 1) :
    scopedUse os a mid m0 =
      ⟨Except.error os.lastErrorAfterDisable, [OsCall.disable], [],
        ((m0.alloc a 0).write a os.disableToken).free a⟩ := by
  unfold scopedUse
  rw [start_of_flag_ne os a m0 h]

theorem scopedUse_result (os : OsRound) (a : Addr) (mid : Mem → Mem)
    (m0 : Mem) :
    (scopedUse os a mid m0).result =
      if os.disableFlag = 1 then Except.ok ()
      else Except.error os.lastErrorAfterDisable := by
  by_cases h : os.disableFlag = 1
  · rw [scopedUse_of_flag_one os a mid m0 h, if_pos h]
  · rw [scopedUse_of_flag_ne os a mid m0 h, if_neg h]

/-- Claim C1, evaluated at a failing input.  The disable call succeeds and
writes token 1 into the slot at address 0; the guard returned by `start`
holds the address (`some 0`), not the token value, and the slot is no
longer live once `start` returns.  When the caller's code then stores 0
into that dead slot, the cleanup passes 0 — not the token 1 — to the
revert primitive: the token is not passed through unmodified. -/
theorem C1_dangling_token_eval :
    (start osOk 0 memZero).res = Except.ok ⟨some 0⟩ ∧
    (start osOk 0 memZero).mem.live 0 = false ∧
    (scopedUse osOk 0 (fun m => m.write 0 0) memZero).calls
      = [OsCall.disable, OsCall.revert 0] ∧
    osOk.disableToken = 1 ∧ (0 : PVOID) ≠ 1 :=
  ⟨rfl, rfl, rfl, rfl, by decide⟩

/-- Claim C2: `start` returns an error exactly when the disable primitive
reports a flag other than 1; in that case the error carries the value of
the last-error query made immediately afterwards, and no guard value is
constructed (every `ok` outcome forces flag 1). -/
theorem C2_start_error_characterization (os : OsRound) (a : Addr) (m : Mem) :
    ((start os a m).res.isOk = true ↔ os.disableFlag = 1) ∧
    (os.disableFlag ≠ 1 →
      (start os a m).res = Except.error os.lastErrorAfterDisable) ∧
    (∀ g : DisableFsRedirection,
      (start os a m).res = Except.ok g → os.disableFlag = 1) := by
  by_cases h : os.disableFlag = 1
  · rw [start_of_flag_one os a m h]
    refine ⟨by simp [Except.isOk, Except.toBool, h], fun hne => absurd h hne, fun g _ => h⟩
  · rw [start_of_flag_ne os a m h]
    refine ⟨by simp [Except.isOk, Except.toBool, h], fun _ => rfl, fun g hg => ?_⟩
    exact absurd hg (by simp)

/-- Witness for C2 at a concrete input: with disable flag 0 and last-error
7, `start` returns exactly `Except.error 7`. -/
theorem C2_start_error_characterization_witness :
    osFail.disableFlag ≠ 1 ∧
    (start osFail 0 memZero).res = Except.error 7 :=
  ⟨by decide, (C2_start_error_characterization osFail 0 memZero).2.1 (by decide)⟩

/-- Counterexample to claim C3 as stated: the disable call writes token 5
and succeeds, the caller's code overwrites the dead slot with 7 before the
scope exits, and the cleanup then invokes revert exactly once — but with
7, not with the token 5 the disable primitive wrote during acquisition. -/
theorem C3_counterexample :
    (scopedUse osTok5 0 (fun m => m.write 0 7) memZero).calls
      = [OsCall.disable, OsCall.revert 7] ∧
    osTok5.disableToken = 5 ∧ (7 : PVOID) ≠ 5 :=
  ⟨rfl, rfl, by decide⟩

/-- Claim C3 as amended: for every successful acquisition, when the scope
is exited the revert primitive is invoked exactly once, its argument being
the value read through the stored pointer at cleanup time (which the
counterexample shows need not equal the token). -/
theorem C3_exactly_once_revert (os : OsRound) (a : Addr) (mid : Mem → Mem)
    (m0 : Mem) (h : os.disableFlag = 1) :
    (scopedUse os a mid m0).calls =
      [OsCall.disable,
        OsCall.revert
          ((mid (((m0.alloc a 0).write a os.disableToken).free a)).contents a)] := by
  rw [scopedUse_of_flag_one os a mid m0 h, dropGuard_calls]

/-- Witness for the amended C3 at a concrete input. -/
theorem C3_exactly_once_revert_witness :
    osTok5.disableFlag = 1 ∧
    (scopedUse osTok5 1 (fun m => m) memZero).calls
      = [OsCall.disable, OsCall.revert 5] :=
  ⟨by decide, C3_exactly_once_revert osTok5 1 (fun m => m) memZero (by decide)⟩

/-- Counterexample to claim C4 as stated: running the release body a second
time on the guard value it left behind is not a no-op — the field was never
cleared, so the second trigger invokes the OS revert call again. -/
theorem C4_counterexample :
    (dropGuard osRevOk memTok3
        ((dropGuard osRevOk memTok3 ⟨some 0⟩).guard)).calls
      = [OsCall.revert 3] ∧
    [OsCall.revert 3] ≠ ([] : List OsCall) :=
  ⟨rfl, by decide⟩

/-- Claim C4 as amended: in the language-faithful execution — the crate
exposes no explicit release operation and the language runs the drop body
at most once per guard value — the revert primitive is invoked at most
once per acquisition.  The drop body itself is not idempotent. -/
theorem C4_revert_at_most_once (os : OsRound) (a : Addr) (mid : Mem → Mem)
    (m0 : Mem) :
    ((scopedUse os a mid m0).calls.countP OsCall.isRevert) ≤ 1 := by
  by_cases h : os.disableFlag = 1
  · rw [scopedUse_of_flag_one os a mid m0 h]
    simp [dropGuard_calls, OsCall.isRevert]
  · rw [scopedUse_of_flag_ne os a mid m0 h]
    simp [OsCall.isRevert]

/-- Claim C5: when the revert primitive reports failure during cleanup, the
drop body still returns normally (it is a total function into `DropResult`,
with no error channel), emits exactly one diagnostic record carrying the
OS last-error code, and makes exactly the one revert call. -/
theorem C5_cleanup_failure_logged (os : OsRound) (m : Mem) (a : Addr)
    (h : os.revertFlag (m.contents a) ≠ 1) :
    dropGuard os m ⟨some a⟩ =
      ⟨⟨some a⟩, [OsCall.revert (m.contents a)],
        [⟨os.lastErrorAfterRevert⟩]⟩ := by
  unfold dropGuard
  dsimp only
  rw [if_pos h]

/-- Witness for C5 at a concrete input: revert returns 0 on token 3, and
the cleanup emits one diagnostic with code 13 and raises nothing. -/
theorem C5_cleanup_failure_logged_witness :
    osRevFail.revertFlag (memTok3.contents 0) ≠ 1 ∧
    dropGuard osRevFail memTok3 ⟨some 0⟩
      = ⟨⟨some 0⟩, [OsCall.revert 3], [⟨13⟩]⟩ :=
  ⟨by decide, C5_cleanup_failure_logged osRevFail memTok3 0 (by decide)⟩

/-- Counterexample to claim C6 as stated: after the release body runs on an
active guard, the field still holds `some 0` — it is not set to the
inactive state, unconditionally or otherwise. -/
theorem C6_counterexample :
    (dropGuard osRevOk memTok3 ⟨some 0⟩).guard = ⟨some 0⟩ ∧
    some 0 ≠ (none : Option Addr) :=
  ⟨rfl, by decide⟩

/-- Claim C6 as amended: on release of an active guard the body invokes the
revert primitive once with the value read through the stored pointer,
whether or not revert reports success, and leaves the guard's field
unchanged — it never sets it to the inactive state; single consumption is
ensured by the language's drop discipline, not by a state reset. -/
theorem C6_drop_keeps_field (os : OsRound) (m : Mem) (a : Addr) :
    (dropGuard os m ⟨some a⟩).guard = ⟨some a⟩ ∧
    (dropGuard os m ⟨some a⟩).calls = [OsCall.revert (m.contents a)] :=
  ⟨dropGuard_guard_unchanged os m ⟨some a⟩, dropGuard_calls os m a⟩

/-- Claim C7: two sequentially acquired-and-released guards are independent.
The second round's caller-visible result is identical to that of a fresh
run from any memory whatsoever — whatever the first round's OS responses,
caller code and outcome (success, acquisition failure, or revert failure)
— and the second acquisition succeeds exactly when its own disable call
reports 1. -/
theorem C7_sequential_independence (os1 os2 : OsRound) (a1 a2 : Addr)
    (mid1 mid2 mid2' : Mem → Mem) (m0 m0' : Mem) :
    (seqTwo os1 os2 a1 a2 mid1 mid2 m0).2.result
      = (scopedUse os2 a2 mid2' m0').result ∧
    ((seqTwo os1 os2 a1 a2 mid1 mid2 m0).2.result = Except.ok ()
      ↔ os2.disableFlag = 1) := by
  unfold seqTwo
  dsimp only
  rw [scopedUse_result, scopedUse_result]
  refine ⟨rfl, ?_⟩
  by_cases h : os2.disableFlag = 1
  · simp [h]
  · simp [h]

/-- Claim C9: both OS success flags are interpreted by exact comparison
with 1: `start` succeeds exactly when the disable call returns 1 (any
other value takes the error branch), and the cleanup emits no failure
diagnostic exactly when the revert call returns 1. -/
theorem C9_exact_flag_comparison (os os2 : OsRound) (a : Addr) (m m2 : Mem)
    (p : Addr) :
    ((start os a m).res.isOk = true ↔ os.disableFlag = 1) ∧
    ((dropGuard os2 m2 ⟨some p⟩).logs = []
      ↔ os2.revertFlag (m2.contents p) = 1) := by
  constructor
  · by_cases h : os.disableFlag = 1
    · rw [start_of_flag_one os a m h]
      simp [Except.isOk, Except.toBool, h]
    · rw [start_of_flag_ne os a m h]
      simp [Except.isOk, Except.toBool, h]
  · rw [dropGuard_logs]
    by_cases h : os2.revertFlag (m2.contents p) = 1
    · simp [h]
    · simp [h]

/-- Claim C10: every guard reachable through the public interface holds a
present pointer: any `ok` outcome of `start` is a guard whose field is
`some` of the slot's address, the release body never clears that field,
and the inactive do-nothing branch of the cleanup is never taken for such
a guard — its cleanup always makes exactly the one revert call. -/
theorem C10_start_guard_always_some (os : OsRound) (a : Addr) (m : Mem)
    (g : DisableFsRedirection) (hg : (start os a m).res = Except.ok g) :
    g.ptr = some a ∧
    (∀ (os2 : OsRound) (m2 : Mem), (dropGuard os2 m2 g).guard = g) ∧
    (∀ (os2 : OsRound) (m2 : Mem),
      (dropGuard os2 m2 g).calls = [OsCall.revert (m2.contents a)]) := by
  by_cases h : os.disableFlag = 1
  · rw [start_of_flag_one os a m h] at hg
    have hgv : g = ⟨some a⟩ := by
      cases hg
      rfl
    subst hgv
    exact ⟨rfl, fun os2 m2 => dropGuard_guard_unchanged os2 m2 ⟨some a⟩,
      fun os2 m2 => dropGuard_calls os2 m2 a⟩
  · rw [start_of_flag_ne os a m h] at hg
    exact absurd hg (by simp)

/-- Witness for C10 at a concrete input. -/
theorem C10_start_guard_always_some_witness :
    (start osOk 5 memZero).res = Except.ok ⟨some 5⟩ ∧
    (⟨some 5⟩ : DisableFsRedirection).ptr = some 5 ∧
    (dropGuard osRevOk memTok3 ⟨some 5⟩).calls = [OsCall.revert 3] :=
  ⟨rfl, (C10_start_guard_always_some osOk 5 memZero ⟨some 5⟩ rfl).1,
    (C10_start_guard_always_some osOk 5 memZero ⟨some 5⟩ rfl).2.2 osRevOk memTok3⟩

end WinFsRedirect
